import Mathlib

/-!
Shallow embedding of the Image-Comparison repository.

The repository contains three comparison pipelines:
* the Lab-space class `ImageCompare` in
  Image_Comparison_Script/Color_Similarity_Detection_Technique.py
  (validates size and container format, converts to CIE Lab via
  skimage's rgb2lab, thresholds the per-pixel Euclidean Lab distance
  against the raw tolerance, reports np.array(img1).size as the total);
* the channel-space class `ImageCompare` in
  Testing/Automated_Testing/color_similarity_detection_technique.py
  (validates size and color mode, takes per-channel absolute differences
  via ImageChops.difference, thresholds against tolerance/100*255 with
  np.any over the channel axis for RGB, reports np.prod(img1.size));
* the procedural script Image_Comparison_Script/Image_Compare.py
  (validates size and container format, counts differing samples with
  np.sum(diff_arr > tolerance_value), and saves difference images from
  np.abs(img1_arr - img2_arr) computed on uint8 arrays, which wraps
  modulo 256).

Images are modelled as grids of 8-bit samples indexed by x, y and a
channel index; grayscale images use channel 0 only.
-/

inductive ColorMode
  | RGB
  | Gray
deriving DecidableEq, Repr

def ColorMode.channels : ColorMode → Nat
  | .RGB => 3
  | .Gray => 1

/-- An in-memory image: dimensions, color mode, container format and the
8-bit sample grid (channel-indexed; grayscale data lives in channel 0). -/
structure Img where
  width : Nat
  height : Nat
  mode : ColorMode
  format : String
  px : Nat → Nat → Fin 3 → Nat
  px_le : ∀ x y c, px x y c ≤ 255

/-- PIL's Image.size attribute: the (width, height) pair. -/
def Img.size (i : Img) : Nat × Nat := (i.width, i.height)

/-- numpy's np.array(img).size: the raw element count of the pixel array,
height*width*3 for RGB and height*width for grayscale. -/
def Img.npSize (i : Img) : Nat := i.width * i.height * i.mode.channels

/-- PIL's convert to RGB: an RGB image is unchanged, a grayscale image
replicates its single channel into all three channels. -/
def Img.pxRGB (i : Img) (x y : Nat) (c : Fin 3) : Nat :=
  match i.mode with
  | .RGB => i.px x y c
  | .Gray => i.px x y 0

/-- The pixel coordinate domain of an image. -/
def pixels (i : Img) : Finset (Nat × Nat) :=
  Finset.range i.width ×ˢ Finset.range i.height

/-- The set of channel indices carrying data for a color mode. -/
def activeChannels : ColorMode → Finset (Fin 3)
  | .RGB => Finset.univ
  | .Gray => {0}

/-- tolerance_value = (tolerance / 100) * 255, the absolute threshold of
the channel-space variants. -/
def toleranceAbs (tol : ℚ) : ℚ := tol / 100 * 255

/-- ImageChops.difference: the true per-sample absolute difference. -/
def chopsDiff (a b : Img) (x y : Nat) (c : Fin 3) : Nat :=
  Nat.dist (a.px x y c) (b.px x y c)

/-- uint8 subtraction followed by np.abs as in saveDiffImages: the
subtraction wraps modulo 256 and np.abs is the identity on the unsigned
result (both inputs are 8-bit samples, so the second is below 256). -/
def wrapDiff (p q : Nat) : Nat := (p + 256 - q) % 256

/-! ## Channel-space class variant
(Testing/Automated_Testing/color_similarity_detection_technique.py) -/

/-- ImageCompare.validate_images of the channel-space variant: size then
color mode. -/
def validate_images_channel (a b : Img) : Except String Unit :=
  if a.size ≠ b.size then .error "Images have different sizes."
  else if a.mode ≠ b.mode then .error "Image modes do not match"
  else .ok ()

/-- The thresholded mask of ImageCompare.compare_images: for RGB, np.any
over the channel axis of diff_array > tolerance_value; for grayscale the
single channel is thresholded directly. -/
def channelMask (a b : Img) (tol : ℚ) (x y : Nat) : Bool :=
  match a.mode with
  | .RGB => decide (∃ c : Fin 3, toleranceAbs tol < (chopsDiff a b x y c : ℚ))
  | .Gray => decide (toleranceAbs tol < (chopsDiff a b x y 0 : ℚ))

/-- np.sum(mask) of the channel-space variant: the number of pixels whose
mask entry is true. -/
def channelCount (a b : Img) (tol : ℚ) : Nat :=
  ((pixels a).filter (fun p => channelMask a b tol p.1 p.2 = true)).card

/-- ImageCompare.compare_images of the channel-space variant: validate,
then return (mask, num_differences, total_pixels) with total_pixels =
np.prod(img1.size) = width * height. -/
def compare_images_channel (a b : Img) (tol : ℚ) :
    Except String ((Nat → Nat → Bool) × Nat × Nat) :=
  match validate_images_channel a b with
  | .error e => .error e
  | .ok _ => .ok (fun x y => channelMask a b tol x y,
                  channelCount a b tol, a.width * a.height)

/-- save_difference_images of the channel-space variant, first output:
img1_diff keeps img1's (RGB-converted) value where the mask is true and
is zero elsewhere. -/
def save_img1_diff (a : Img) (m : Nat → Nat → Bool) (x y : Nat) (c : Fin 3) : Nat :=
  if m x y then a.pxRGB x y c else 0

/-- save_difference_images, second output, symmetric for img2. -/
def save_img2_diff (b : Img) (m : Nat → Nat → Bool) (x y : Nat) (c : Fin 3) : Nat :=
  if m x y then b.pxRGB x y c else 0

/-- save_difference_images, third output: np.add(img1_diff, img2_diff) on
uint8 arrays, which wraps modulo 256. -/
def save_combined (a b : Img) (m : Nat → Nat → Bool) (x y : Nat) (c : Fin 3) : Nat :=
  (save_img1_diff a m x y c + save_img2_diff b m x y c) % 256

/-! ## Procedural variant (Image_Comparison_Script/Image_Compare.py) -/

/-- compareImagesFormat: error unless the container formats match. -/
def compareImagesFormat (a b : Img) : Except String Bool :=
  if a.format ≠ b.format then .error "Image formats do not match"
  else .ok true

/-- np.sum(diff_arr > tolerance_value) of compareImagesToleranceBased:
for an RGB image this counts differing samples (pixel-channel pairs),
for a grayscale image it counts differing pixels. -/
def procCount (a b : Img) (tol : ℚ) : Nat :=
  match a.mode with
  | .RGB => (((pixels a) ×ˢ (Finset.univ : Finset (Fin 3))).filter
      (fun p => toleranceAbs tol < (chopsDiff a b p.1.1 p.1.2 p.2 : ℚ))).card
  | .Gray => ((pixels a).filter
      (fun p => toleranceAbs tol < (chopsDiff a b p.1 p.2 0 : ℚ))).card

/-- compareImagesToleranceBased: size check, format check, then
(num_differences == 0, num_differences, np.array(img1).size). -/
def compareImagesToleranceBased (a b : Img) (tol : ℚ) :
    Except String (Bool × Nat × Nat) :=
  if a.size ≠ b.size then .error "Images have different sizes."
  else match compareImagesFormat a b with
  | .error e => .error e
  | .ok _ => .ok (decide (procCount a b tol = 0), procCount a b tol, a.npSize)

/-- The format gate of image_compare.py's main, run before the comparison
object is constructed. -/
def mainFormatCheck (a b : Img) : Except String Unit :=
  if a.format ≠ b.format then .error "Image formats do not match"
  else .ok ()

/-- saveDiffImages, first output: np.where(np.abs(img1_arr - img2_arr) >
tolerance_value, img1_arr, 0) with the uint8 wrapped difference. -/
def saveDiff_img1 (a b : Img) (tv : ℚ) (x y : Nat) (c : Fin 3) : Nat :=
  if tv < (wrapDiff (a.px x y c) (b.px x y c) : ℚ) then a.px x y c else 0

/-- saveDiffImages, second output: the wrapped difference is taken in the
opposite direction, img2_arr - img1_arr. -/
def saveDiff_img2 (a b : Img) (tv : ℚ) (x y : Nat) (c : Fin 3) : Nat :=
  if tv < (wrapDiff (b.px x y c) (a.px x y c) : ℚ) then b.px x y c else 0

/-- saveDiffImages, third output: np.where(np.abs(img1_arr - img2_arr) >
tolerance_value, img1_arr, img2_arr). -/
def saveDiff_combined (a b : Img) (tv : ℚ) (x y : Nat) (c : Fin 3) : Nat :=
  if tv < (wrapDiff (a.px x y c) (b.px x y c) : ℚ) then a.px x y c else b.px x y c

/-! ## Lab-space class variant
(Image_Comparison_Script/Color_Similarity_Detection_Technique.py)

convert_to_lab divides the 8-bit array by 255.0 and applies skimage's
color.rgb2lab, modelled component-wise below with the exact constants of
skimage (sRGB inverse gamma, the xyz_from_rgb matrix, the D65 reference
white (0.95047, 1.0, 1.08883) and the cube-root branch of xyz2lab). -/

/-- skimage rgb2xyz gamma removal: channels above 0.04045 go through the
power 2.4 curve, the rest are divided by 12.92. -/
noncomputable def srgbInvGamma (c : ℝ) : ℝ :=
  if 0.04045 < c then ((c + 0.055) / 1.055) ^ (2.4 : ℝ) else c / 12.92

/-- skimage xyz2lab helper: cube root above the 0.008856 threshold,
linear below it. -/
noncomputable def labF (t : ℝ) : ℝ :=
  if 0.008856 < t then t ^ ((1 : ℝ) / 3) else 7.787 * t + 16 / 116

/-- Row X of skimage's xyz_from_rgb matrix applied to linearized RGB. -/
noncomputable def xyzX (r g b : ℝ) : ℝ :=
  0.412453 * srgbInvGamma r + 0.357580 * srgbInvGamma g + 0.180423 * srgbInvGamma b

/-- Row Y of skimage's xyz_from_rgb matrix applied to linearized RGB. -/
noncomputable def xyzY (r g b : ℝ) : ℝ :=
  0.212671 * srgbInvGamma r + 0.715160 * srgbInvGamma g + 0.072169 * srgbInvGamma b

/-- Row Z of skimage's xyz_from_rgb matrix applied to linearized RGB. -/
noncomputable def xyzZ (r g b : ℝ) : ℝ :=
  0.019334 * srgbInvGamma r + 0.119193 * srgbInvGamma g + 0.950227 * srgbInvGamma b

/-- The L component of skimage rgb2lab. -/
noncomputable def labL (r g b : ℝ) : ℝ := 116 * labF (xyzY r g b / 1.0) - 16

/-- The a component of skimage rgb2lab. -/
noncomputable def labA (r g b : ℝ) : ℝ :=
  500 * (labF (xyzX r g b / 0.95047) - labF (xyzY r g b / 1.0))

/-- The b component of skimage rgb2lab. -/
noncomputable def labBStar (r g b : ℝ) : ℝ :=
  200 * (labF (xyzY r g b / 1.0) - labF (xyzZ r g b / 1.08883))

/-- compute_lab_difference at one pixel: the Euclidean distance of the two
Lab triples, np.sqrt(np.sum((img1_lab - img2_lab) ** 2, axis=2)). -/
noncomputable def labDiff (a b : Img) (x y : Nat) : ℝ :=
  Real.sqrt
    ((labL ((a.px x y 0 : ℝ) / 255) ((a.px x y 1 : ℝ) / 255) ((a.px x y 2 : ℝ) / 255)
        - labL ((b.px x y 0 : ℝ) / 255) ((b.px x y 1 : ℝ) / 255) ((b.px x y 2 : ℝ) / 255)) ^ 2
      + (labA ((a.px x y 0 : ℝ) / 255) ((a.px x y 1 : ℝ) / 255) ((a.px x y 2 : ℝ) / 255)
        - labA ((b.px x y 0 : ℝ) / 255) ((b.px x y 1 : ℝ) / 255) ((b.px x y 2 : ℝ) / 255)) ^ 2
      + (labBStar ((a.px x y 0 : ℝ) / 255) ((a.px x y 1 : ℝ) / 255) ((a.px x y 2 : ℝ) / 255)
        - labBStar ((b.px x y 0 : ℝ) / 255) ((b.px x y 1 : ℝ) / 255) ((b.px x y 2 : ℝ) / 255)) ^ 2)

/-- The Lab-variant mask: lab_diff > tolerance, with the raw tolerance
value (no /255 scaling). -/
def labMask (a b : Img) (tol : ℝ) (x y : Nat) : Prop := tol < labDiff a b x y

open Classical in
/-- np.sum(mask) of the Lab variant: the number of pixels whose Euclidean
Lab distance strictly exceeds the tolerance. -/
noncomputable def labCount (a b : Img) (tol : ℝ) : Nat :=
  ((pixels a).filter (fun p => labMask a b tol p.1 p.2)).card

/-- ImageCompare.validate_images of the Lab variant: size, then container
format; the color mode is not checked. -/
def validate_images_lab (a b : Img) : Except String Unit :=
  if a.size ≠ b.size then .error "Images have different sizes."
  else if a.format ≠ b.format then .error "Image formats do not match"
  else .ok ()

/-- ImageCompare.compare_images of the Lab variant: validate, then return
(lab_diff, num_differences, total_pixels) with total_pixels =
np.array(img1).size, the raw element count. -/
noncomputable def compare_images_lab (a b : Img) (tol : ℝ) :
    Except String ((Nat → Nat → ℝ) × Nat × Nat) :=
  match validate_images_lab a b with
  | .error e => .error e
  | .ok _ => .ok (fun x y => labDiff a b x y, labCount a b tol, a.npSize)

open Classical in
/-- save_difference_images of the Lab variant, first output:
np.where(mask_expanded, img1_rgb, 0). -/
noncomputable def lab_save_img1 (a b : Img) (tol : ℝ) (x y : Nat) (c : Fin 3) : Nat :=
  if labMask a b tol x y then a.px x y c else 0

open Classical in
/-- save_difference_images of the Lab variant, second output. -/
noncomputable def lab_save_img2 (a b : Img) (tol : ℝ) (x y : Nat) (c : Fin 3) : Nat :=
  if labMask a b tol x y then b.px x y c else 0

open Classical in
/-- save_difference_images of the Lab variant, third output:
np.where(mask_expanded, (img1_rgb + img2_rgb) // 2, 0), where the uint8
addition wraps modulo 256 before the floor division by two. -/
noncomputable def lab_save_combined (a b : Img) (tol : ℝ) (x y : Nat) (c : Fin 3) : Nat :=
  if labMask a b tol x y then ((a.px x y c + b.px x y c) % 256) / 2 else 0

/-! ## Concrete images used as test inputs -/

/-- Channel data of a pure blue RGB pixel. -/
def bluePx : Fin 3 → Nat
  | 0 => 0
  | 1 => 0
  | 2 => 255

/-- Channel data of a pure yellow RGB pixel. -/
def yellowPx : Fin 3 → Nat
  | 0 => 255
  | 1 => 255
  | 2 => 0

/-- A 1-by-1 pure blue RGB PNG image. -/
def blueImg : Img where
  width := 1
  height := 1
  mode := .RGB
  format := "PNG"
  px := fun _ _ c => bluePx c
  px_le := by intro _ _ c; revert c; show ∀ c : Fin 3, bluePx c ≤ 255; decide

/-- A 1-by-1 pure yellow RGB PNG image. -/
def yellowImg : Img where
  width := 1
  height := 1
  mode := .RGB
  format := "PNG"
  px := fun _ _ c => yellowPx c
  px_le := by intro _ _ c; revert c; show ∀ c : Fin 3, yellowPx c ≤ 255; decide

/-- A 1-by-1 all-zero RGB PNG image. -/
def rgbZero : Img := ⟨1, 1, .RGB, "PNG", fun _ _ _ => 0, fun _ _ _ => by norm_num⟩

/-- The same all-zero RGB image with a JPEG container format. -/
def rgbZeroJPEG : Img := ⟨1, 1, .RGB, "JPEG", fun _ _ _ => 0, fun _ _ _ => by norm_num⟩

/-- A 1-by-1 all-zero grayscale PNG image. -/
def grayZero : Img := ⟨1, 1, .Gray, "PNG", fun _ _ _ => 0, fun _ _ _ => by norm_num⟩

/-- A 1-by-1 grayscale PNG image with full intensity 255. -/
def gray255 : Img := ⟨1, 1, .Gray, "PNG", fun _ _ _ => 255, fun _ _ _ => le_rfl⟩

/-- A 1-by-1 RGB PNG image with every sample equal to 200. -/
def img200 : Img := ⟨1, 1, .RGB, "PNG", fun _ _ _ => 200, fun _ _ _ => by norm_num⟩

/-- A 1-by-1 RGB PNG image with every sample equal to 10. -/
def img10 : Img := ⟨1, 1, .RGB, "PNG", fun _ _ _ => 10, fun _ _ _ => by norm_num⟩

/-! ## Helper lemmas -/

lemma le_rpow_third {q t : ℝ} (hq : 0 ≤ q) (h : q ^ (3 : ℕ) ≤ t) :
    q ≤ t ^ ((1 : ℝ) / 3) := by
  have h3 : ((q ^ (3 : ℕ) : ℝ)) ^ ((1 : ℝ) / 3) ≤ t ^ ((1 : ℝ) / 3) :=
    Real.rpow_le_rpow (by positivity) h (by norm_num)
  have he : ((q ^ (3 : ℕ) : ℝ)) ^ ((1 : ℝ) / 3) = q := by
    rw [← Real.rpow_natCast q 3, ← Real.rpow_mul hq]
    norm_num
  rw [← he]
  exact h3

lemma rpow_third_le {q t : ℝ} (hq : 0 ≤ q) (ht : 0 ≤ t) (h : t ≤ q ^ (3 : ℕ)) :
    t ^ ((1 : ℝ) / 3) ≤ q := by
  have h3 : t ^ ((1 : ℝ) / 3) ≤ ((q ^ (3 : ℕ) : ℝ)) ^ ((1 : ℝ) / 3) :=
    Real.rpow_le_rpow ht h (by norm_num)
  have he : ((q ^ (3 : ℕ) : ℝ)) ^ ((1 : ℝ) / 3) = q := by
    rw [← Real.rpow_natCast q 3, ← Real.rpow_mul hq]
    norm_num
  rw [← he]
  exact h3

lemma srgb_zero : srgbInvGamma 0 = 0 := by
  rw [srgbInvGamma, if_neg (by norm_num)]
  norm_num

lemma srgb_one : srgbInvGamma 1 = 1 := by
  have h1 : ((1 : ℝ) + 0.055) / 1.055 = 1 := by norm_num
  rw [srgbInvGamma, if_pos (by norm_num), h1, Real.one_rpow]

lemma xyzY_blue : xyzY 0 0 1 = 0.072169 := by
  rw [xyzY, srgb_zero, srgb_one]; norm_num

lemma xyzZ_blue : xyzZ 0 0 1 = 0.950227 := by
  rw [xyzZ, srgb_zero, srgb_one]; norm_num

lemma xyzY_yellow : xyzY 1 1 0 = 0.927831 := by
  rw [xyzY, srgb_zero, srgb_one]; norm_num

lemma xyzZ_yellow : xyzZ 1 1 0 = 0.138527 := by
  rw [xyzZ, srgb_zero, srgb_one]; norm_num

lemma labF_blue_y_le : labF (0.072169 / 1.0) ≤ 0.42 := by
  rw [labF, if_pos (by norm_num)]
  exact rpow_third_le (by norm_num) (by norm_num) (by norm_num)

lemma labF_blue_z_ge : 0.95 ≤ labF (0.950227 / 1.08883) := by
  rw [labF, if_pos (by norm_num)]
  exact le_rpow_third (by norm_num) (by norm_num)

lemma labF_yellow_y_ge : 0.97 ≤ labF (0.927831 / 1.0) := by
  rw [labF, if_pos (by norm_num)]
  exact le_rpow_third (by norm_num) (by norm_num)

lemma labF_yellow_z_le : labF (0.138527 / 1.08883) ≤ 0.51 := by
  rw [labF, if_pos (by norm_num)]
  exact rpow_third_le (by norm_num) (by norm_num) (by norm_num)

lemma labB_gap : 198 ≤ labBStar 1 1 0 - labBStar 0 0 1 := by
  rw [labBStar, labBStar, xyzY_yellow, xyzZ_yellow, xyzY_blue, xyzZ_blue]
  have h1 := labF_yellow_y_ge
  have h2 := labF_yellow_z_le
  have h3 := labF_blue_y_le
  have h4 := labF_blue_z_ge
  linarith

lemma labDiff_blue_yellow : 100 < labDiff blueImg yellowImg 0 0 := by
  have e1 : labDiff blueImg yellowImg 0 0
      = Real.sqrt ((labL 0 0 1 - labL 1 1 0) ^ 2 + (labA 0 0 1 - labA 1 1 0) ^ 2
          + (labBStar 0 0 1 - labBStar 1 1 0) ^ 2) := by
    rw [labDiff]
    norm_num [show blueImg.px 0 0 0 = 0 from rfl, show blueImg.px 0 0 1 = 0 from rfl,
      show blueImg.px 0 0 2 = 255 from rfl, show yellowImg.px 0 0 0 = 255 from rfl,
      show yellowImg.px 0 0 1 = 255 from rfl, show yellowImg.px 0 0 2 = 0 from rfl]
  rw [e1]
  have hgap := labB_gap
  have hsum : (100 : ℝ) ^ 2 < (labL 0 0 1 - labL 1 1 0) ^ 2 + (labA 0 0 1 - labA 1 1 0) ^ 2
      + (labBStar 0 0 1 - labBStar 1 1 0) ^ 2 := by
    nlinarith [sq_nonneg (labL 0 0 1 - labL 1 1 0), sq_nonneg (labA 0 0 1 - labA 1 1 0)]
  exact (Real.lt_sqrt (by norm_num)).mpr hsum

lemma dist_le_255 (a b : Img) (x y : Nat) (c : Fin 3) :
    ((chopsDiff a b x y c : ℕ) : ℚ) ≤ 255 := by
  have h1 := a.px_le x y c
  have h2 := b.px_le x y c
  have h : chopsDiff a b x y c ≤ 255 := by
    rw [chopsDiff, Nat.dist]
    omega
  exact_mod_cast h

lemma channelMask_100_false (a b : Img) (x y : Nat) :
    channelMask a b 100 x y = false := by
  have ht : toleranceAbs 100 = 255 := by norm_num [toleranceAbs]
  have hd : ∀ c : Fin 3, ¬ toleranceAbs 100 < ((chopsDiff a b x y c : ℕ) : ℚ) := by
    intro c
    rw [ht]
    exact not_lt.mpr (dist_le_255 a b x y c)
  cases hm : a.mode
  · rw [channelMask]
    simp only [hm]
    simp only [decide_eq_false_iff_not]
    rintro ⟨c, hc⟩
    exact hd c hc
  · rw [channelMask]
    simp only [hm]
    simp only [decide_eq_false_iff_not]
    exact hd 0

lemma channelCount_100 (a b : Img) : channelCount a b 100 = 0 := by
  rw [channelCount, Finset.card_eq_zero, Finset.filter_eq_empty_iff]
  intro p _
  simp [channelMask_100_false]

lemma procCount_100 (a b : Img) : procCount a b 100 = 0 := by
  have ht : toleranceAbs 100 = 255 := by norm_num [toleranceAbs]
  cases hm : a.mode
  · rw [procCount]
    simp only [hm]
    rw [Finset.card_eq_zero, Finset.filter_eq_empty_iff]
    intro p _
    rw [ht]
    exact not_lt.mpr (dist_le_255 a b p.1.1 p.1.2 p.2)
  · rw [procCount]
    simp only [hm]
    rw [Finset.card_eq_zero, Finset.filter_eq_empty_iff]
    intro p _
    rw [ht]
    exact not_lt.mpr (dist_le_255 a b p.1 p.2 0)

lemma card_pixels (i : Img) : (pixels i).card = i.width * i.height := by
  simp [pixels]

lemma channels_pos (m : ColorMode) : 0 < m.channels := by
  cases m <;> simp [ColorMode.channels]

/-- C3: in every variant the difference mask is true exactly when the
computed difference magnitude strictly exceeds the threshold, so a pixel
or sample whose magnitude equals the threshold is not counted: for the
Lab variant the mask holds iff the Euclidean Lab distance strictly
exceeds the raw tolerance, and for the channel-space variant the mask is
true iff some active channel's absolute difference strictly exceeds
tolerance/100*255. -/
theorem mask_iff_strictly_greater (a b : Img) (q : ℚ) (t : ℝ) (x y : Nat) :
    (labMask a b t x y ↔ t < labDiff a b x y) ∧
    (channelMask a b q x y = true ↔
      ∃ c ∈ activeChannels a.mode, toleranceAbs q < ((chopsDiff a b x y c : ℕ) : ℚ)) := by
  refine ⟨Iff.rfl, ?_⟩
  cases hm : a.mode
  · rw [channelMask]
    simp [hm, activeChannels]
  · rw [channelMask]
    simp [hm, activeChannels]

/-- C5 counterexample: with two all-200 images and an all-true mask, the
combined difference image of the class variant holds (200+200) mod 256 =
144 at the masked pixel, which is neither the clipped sum 255 nor the
midpoint 200; and in the procedural variant a non-differing pixel of the
combined image holds img2's value 10 instead of zero. -/
theorem combined_not_clipped_cex :
    save_combined img200 img200 (fun _ _ => true) 0 0 0 = 144 ∧
    min (img200.pxRGB 0 0 0 + img200.pxRGB 0 0 0) 255 = 255 ∧
    (img200.pxRGB 0 0 0 + img200.pxRGB 0 0 0) / 2 = 200 ∧
    saveDiff_combined img200 img10 (toleranceAbs 100) 0 0 0 = 10 := by
  refine ⟨by decide, by decide, by decide, ?_⟩
  have h : ¬ toleranceAbs 100 < ((wrapDiff (img200.px 0 0 0) (img10.px 0 0 0) : ℕ) : ℚ) := by
    norm_num [wrapDiff, toleranceAbs, img200, img10]
  rw [saveDiff_combined, if_neg h]
  rfl

open Classical in
/-- C5 amended: in the combined difference images, a masked pixel holds
the modulo-256 wrapped sum of the two source values (class variant), or
half of the wrapped sum (Lab variant), and an unmasked pixel is zero;
in the procedural variant a pixel whose wrapped difference does not
exceed the threshold holds img2's value instead of zero. -/
theorem combined_blend_semantics (a b : Img) (m : Nat → Nat → Bool) (t : ℝ) (tv : ℚ)
    (x y : Nat) (c : Fin 3) :
    save_combined a b m x y c =
      (if m x y then (a.pxRGB x y c + b.pxRGB x y c) % 256 else 0) ∧
    lab_save_combined a b t x y c =
      (if labMask a b t x y then ((a.px x y c + b.px x y c) % 256) / 2 else 0) ∧
    saveDiff_combined a b tv x y c =
      (if tv < ((wrapDiff (a.px x y c) (b.px x y c) : ℕ) : ℚ) then a.px x y c
       else b.px x y c) := by
  refine ⟨?_, rfl, rfl⟩
  rw [save_combined, save_img1_diff, save_img2_diff]
  cases hm : m x y <;> simp

open Classical in
/-- C7: in every variant the number of differing entries lies between 0
and the reported total: the channel-space count is at most width*height,
and the Lab and procedural counts are at most np.array(img1).size. -/
theorem count_bounds (a b : Img) (q : ℚ) (t : ℝ) :
    0 ≤ channelCount a b q ∧ channelCount a b q ≤ a.width * a.height ∧
    0 ≤ labCount a b t ∧ labCount a b t ≤ a.npSize ∧
    0 ≤ procCount a b q ∧ procCount a b q ≤ a.npSize := by
  refine ⟨Nat.zero_le _, ?_, Nat.zero_le _, ?_, Nat.zero_le _, ?_⟩
  · calc channelCount a b q ≤ (pixels a).card := Finset.card_filter_le _ _
      _ = a.width * a.height := card_pixels a
  · calc labCount a b t ≤ (pixels a).card := Finset.card_filter_le _ _
      _ = a.width * a.height := card_pixels a
      _ ≤ a.width * a.height * a.mode.channels :=
        Nat.le_mul_of_pos_right _ (channels_pos a.mode)
      _ = a.npSize := rfl
  · rw [Img.npSize]
    cases hm : a.mode
    · rw [procCount]
      simp only [hm]
      calc (((pixels a) ×ˢ (Finset.univ : Finset (Fin 3))).filter
            (fun p => toleranceAbs q < ((chopsDiff a b p.1.1 p.1.2 p.2 : ℕ) : ℚ))).card
          ≤ ((pixels a) ×ˢ (Finset.univ : Finset (Fin 3))).card := Finset.card_filter_le _ _
        _ = a.width * a.height * 3 := by
            rw [Finset.card_product, card_pixels]
            simp
        _ = a.width * a.height * ColorMode.RGB.channels := rfl
    · rw [procCount]
      simp only [hm]
      calc ((pixels a).filter
            (fun p => toleranceAbs q < ((chopsDiff a b p.1 p.2 0 : ℕ) : ℚ))).card
          ≤ (pixels a).card := Finset.card_filter_le _ _
        _ = a.width * a.height := card_pixels a
        _ = a.width * a.height * ColorMode.Gray.channels := by
            rw [ColorMode.channels]
            omega

/-- C9: in the procedural variant, a sample with value 0 in image1 and
255 in image2 is counted as differing at tolerance 50 (true absolute
difference 255 exceeds the threshold 127.5), yet the saved difference
images compute the wrapped uint8 difference (0 - 255) mod 256 = 1, which
does not exceed the threshold, so the same sample is rendered as not
differing in diff_img1 and the combined image shows img2's value. -/
theorem proc_count_save_disagree :
    procCount grayZero gray255 50 = 1 ∧
    toleranceAbs 50 < ((chopsDiff grayZero gray255 0 0 0 : ℕ) : ℚ) ∧
    ¬ toleranceAbs 50 < ((wrapDiff (grayZero.px 0 0 0) (gray255.px 0 0 0) : ℕ) : ℚ) ∧
    saveDiff_img1 grayZero gray255 (toleranceAbs 50) 0 0 0 = 0 ∧
    saveDiff_combined grayZero gray255 (toleranceAbs 50) 0 0 0 = gray255.px 0 0 0 := by
  have hwrap : ¬ toleranceAbs 50 < ((wrapDiff (grayZero.px 0 0 0) (gray255.px 0 0 0) : ℕ) : ℚ) := by
    norm_num [wrapDiff, toleranceAbs, grayZero, gray255]
  refine ⟨?_, ?_, hwrap, ?_, ?_⟩
  · have hp : pixels grayZero = {(0, 0)} := rfl
    rw [procCount]
    show ((pixels grayZero).filter
        (fun p => toleranceAbs 50 < ((chopsDiff grayZero gray255 p.1 p.2 0 : ℕ) : ℚ))).card = 1
    rw [hp, Finset.filter_singleton, if_pos]
    · rfl
    · norm_num [chopsDiff, toleranceAbs, grayZero, gray255, Nat.dist]
  · norm_num [chopsDiff, toleranceAbs, grayZero, gray255, Nat.dist]
  · rw [saveDiff_img1, if_neg hwrap]
  · rw [saveDiff_combined, if_neg hwrap]

/-- C1 amended: the totalPixelCount reported by each variant, with the
assignment the reverse of the spec sentence: the Lab variant reports the
raw element count np.array(img1).size (width*height*channels), while the
channel-space variant reports the pixel count np.prod(img1.size) =
width*height. -/
theorem totals_by_metric (a b : Img) (q : ℚ) (r : ℝ)
    (hsz : a.size = b.size) (hfmt : a.format = b.format) (hmode : a.mode = b.mode) :
    (∃ m n, compare_images_lab a b r = Except.ok (m, n, a.npSize)) ∧
    (∃ m n, compare_images_channel a b q = Except.ok (m, n, a.width * a.height)) := by
  constructor
  · refine ⟨fun x y => labDiff a b x y, labCount a b r, ?_⟩
    rw [compare_images_lab, validate_images_lab, if_neg (by simp [hsz]), if_neg (by simp [hfmt])]
  · refine ⟨fun x y => channelMask a b q x y, channelCount a b q, ?_⟩
    rw [compare_images_channel, validate_images_channel, if_neg (by simp [hsz]),
      if_neg (by simp [hmode])]

/-- Witness for the amended C1 theorem at two concrete compatible images. -/
theorem totals_by_metric_witness :
    (∃ m n, compare_images_lab blueImg yellowImg (0 : ℝ)
        = Except.ok (m, n, blueImg.npSize)) ∧
    (∃ m n, compare_images_channel blueImg yellowImg (0 : ℚ)
        = Except.ok (m, n, blueImg.width * blueImg.height)) :=
  totals_by_metric blueImg yellowImg 0 0 rfl rfl rfl

/-- C1 counterexample: at two concrete 1-by-1 RGB images the Lab variant
reports total 3, not width*height = 1, and the channel-space variant
reports total 1, not the raw element count 3; the claim's assignment of
the two totals is therefore false on both metrics. -/
theorem totals_claim_cex :
    (¬ ∃ m n, compare_images_lab blueImg yellowImg (0 : ℝ)
        = Except.ok (m, n, blueImg.width * blueImg.height)) ∧
    (¬ ∃ m n, compare_images_channel blueImg yellowImg (0 : ℚ)
        = Except.ok (m, n, blueImg.npSize)) := by
  constructor
  · rintro ⟨m, n, h⟩
    have hv : validate_images_lab blueImg yellowImg = .ok () := rfl
    rw [compare_images_lab, hv] at h
    simp only [Except.ok.injEq, Prod.mk.injEq] at h
    have h3 : blueImg.npSize = blueImg.width * blueImg.height := h.2.2
    simp [Img.npSize, blueImg, ColorMode.channels] at h3
  · rintro ⟨m, n, h⟩
    have hv : validate_images_channel blueImg yellowImg = .ok () := rfl
    rw [compare_images_channel, hv] at h
    simp only [Except.ok.injEq, Prod.mk.injEq] at h
    have h3 : blueImg.width * blueImg.height = blueImg.npSize := h.2.2
    simp [Img.npSize, blueImg, ColorMode.channels] at h3

/-- C2 amended: for same-size, same-format images whose color modes
differ, only the channel-space variant raises a mode-mismatch error
before any per-pixel computation; the Lab variant's validation checks
size and container format only and passes the pair through, and the
procedural variant's format gate likewise succeeds. -/
theorem mode_gate_by_variant (a b : Img) (q : ℚ)
    (hsz : a.size = b.size) (hfmt : a.format = b.format) (hmode : a.mode ≠ b.mode) :
    (∃ e, compare_images_channel a b q = Except.error e) ∧
    validate_images_lab a b = Except.ok () ∧
    compareImagesFormat a b = Except.ok true := by
  refine ⟨⟨"Image modes do not match", ?_⟩, ?_, ?_⟩
  · rw [compare_images_channel, validate_images_channel, if_neg (by simp [hsz]),
      if_pos hmode]
  · rw [validate_images_lab, if_neg (by simp [hsz]), if_neg (by simp [hfmt])]
  · rw [compareImagesFormat, if_neg (by simp [hfmt])]

/-- Witness for the amended C2 theorem at a concrete RGB/grayscale pair
of equal size and format. -/
theorem mode_gate_by_variant_witness :
    (∃ e, compare_images_channel rgbZero grayZero (0 : ℚ) = Except.error e) ∧
    validate_images_lab rgbZero grayZero = Except.ok () ∧
    compareImagesFormat rgbZero grayZero = Except.ok true :=
  mode_gate_by_variant rgbZero grayZero 0 rfl rfl (by decide)

/-- C2 counterexample: an RGB and a grayscale image of identical size and
format pass the Lab variant's validation, so that variant raises no
mode-mismatch error before per-pixel work, contradicting the claim that
every comparison variant does. -/
theorem mode_gate_cex :
    validate_images_lab rgbZero grayZero = Except.ok () ∧
    rgbZero.size = grayZero.size ∧ rgbZero.mode ≠ grayZero.mode :=
  ⟨rfl, rfl, by decide⟩

/-- C4 amended: at tolerance 100 the direct channel-space metric counts
no differing pixels (the absolute threshold becomes 255 and 8-bit
differences never strictly exceed it), and the procedural per-sample
count is likewise zero; the Lab metric does not share this property
because Euclidean Lab distances can exceed the raw tolerance 100. -/
theorem tolerance100_direct_zero (a b : Img)
    (hsz : a.size = b.size) (hmode : a.mode = b.mode) :
    (∃ m, compare_images_channel a b 100 = Except.ok (m, 0, a.width * a.height)) ∧
    procCount a b 100 = 0 := by
  refine ⟨⟨fun x y => channelMask a b 100 x y, ?_⟩, procCount_100 a b⟩
  rw [compare_images_channel, validate_images_channel, if_neg (by simp [hsz]),
    if_neg (by simp [hmode]), channelCount_100]

/-- Witness for the amended C4 theorem at two concrete images. -/
theorem tolerance100_direct_zero_witness :
    (∃ m, compare_images_channel blueImg yellowImg 100
        = Except.ok (m, 0, blueImg.width * blueImg.height)) ∧
    procCount blueImg yellowImg 100 = 0 :=
  tolerance100_direct_zero blueImg yellowImg rfl rfl

open Classical in
/-- C4 counterexample: comparing a pure blue and a pure yellow 1-by-1
image with the Lab variant at tolerance 100 does not yield a differing
count of zero, because the Euclidean Lab distance of blue and yellow
exceeds 100. -/
theorem tolerance100_lab_cex :
    ¬ ∃ m t, compare_images_lab blueImg yellowImg (100 : ℝ) = Except.ok (m, 0, t) := by
  rintro ⟨m, t, h⟩
  have hv : validate_images_lab blueImg yellowImg = .ok () := rfl
  rw [compare_images_lab, hv] at h
  simp only [Except.ok.injEq, Prod.mk.injEq] at h
  have hz : labCount blueImg yellowImg 100 = 0 := h.2.1
  have hpos : 0 < labCount blueImg yellowImg 100 := by
    rw [labCount]
    apply Finset.card_pos.mpr
    refine ⟨(0, 0), Finset.mem_filter.mpr ⟨by decide, ?_⟩⟩
    exact labDiff_blue_yellow
  omega

lemma toleranceAbs_mono {q1 q2 : ℚ} (h : q1 ≤ q2) : toleranceAbs q1 ≤ toleranceAbs q2 := by
  rw [toleranceAbs, toleranceAbs]
  nlinarith

lemma channelMask_antitone (a b : Img) {q1 q2 : ℚ} (h : q1 ≤ q2) (x y : Nat)
    (hm : channelMask a b q2 x y = true) : channelMask a b q1 x y = true := by
  have htol := toleranceAbs_mono h
  cases hmode : a.mode
  · rw [channelMask] at hm ⊢
    simp only [hmode, decide_eq_true_eq] at hm ⊢
    obtain ⟨c, hc⟩ := hm
    exact ⟨c, lt_of_le_of_lt htol hc⟩
  · rw [channelMask] at hm ⊢
    simp only [hmode, decide_eq_true_eq] at hm ⊢
    exact lt_of_le_of_lt htol hm

open Classical in
/-- C6: for fixed input grids the differing count of every variant is
non-increasing as the tolerance increases, in the channel-space, Lab and
procedural comparisons alike. -/
theorem differing_count_antitone (a b : Img) (q1 q2 : ℚ) (t1 t2 : ℝ)
    (hq : q1 ≤ q2) (ht : t1 ≤ t2) :
    channelCount a b q2 ≤ channelCount a b q1 ∧
    labCount a b t2 ≤ labCount a b t1 ∧
    procCount a b q2 ≤ procCount a b q1 := by
  have htol := toleranceAbs_mono hq
  refine ⟨?_, ?_, ?_⟩
  · apply Finset.card_le_card
    apply Finset.monotone_filter_right
    intro p hp
    exact channelMask_antitone a b hq p.1 p.2 hp
  · apply Finset.card_le_card
    apply Finset.monotone_filter_right
    intro p hp
    exact lt_of_le_of_lt ht hp
  · cases hmode : a.mode
    · rw [procCount, procCount]
      simp only [hmode]
      apply Finset.card_le_card
      apply Finset.monotone_filter_right
      intro p hp
      exact lt_of_le_of_lt htol hp
    · rw [procCount, procCount]
      simp only [hmode]
      apply Finset.card_le_card
      apply Finset.monotone_filter_right
      intro p hp
      exact lt_of_le_of_lt htol hp

/-- Witness for the C6 theorem at two concrete images and tolerances 0
and 50. -/
theorem differing_count_antitone_witness :
    channelCount blueImg yellowImg 50 ≤ channelCount blueImg yellowImg 0 ∧
    labCount blueImg yellowImg 50 ≤ labCount blueImg yellowImg 0 ∧
    procCount blueImg yellowImg 50 ≤ procCount blueImg yellowImg 0 :=
  differing_count_antitone blueImg yellowImg 0 50 0 50 (by norm_num) (by norm_num)

open Classical in
/-- C8: restricted to pixels where the mask is true, the isolate images
of both class variants hold exactly the source values: img1_diff equals
img1's (RGB-coerced) value and img2_diff equals img2's value there, and
the Lab variant's masked outputs likewise recover img1's and img2's raw
values. -/
theorem isolate_recovers (a b : Img) (m : Nat → Nat → Bool) (t : ℝ) (x y : Nat) (c : Fin 3)
    (hm : m x y = true) (hl : labMask a b t x y) :
    save_img1_diff a m x y c = a.pxRGB x y c ∧
    save_img2_diff b m x y c = b.pxRGB x y c ∧
    lab_save_img1 a b t x y c = a.px x y c ∧
    lab_save_img2 a b t x y c = b.px x y c := by
  refine ⟨?_, ?_, ?_, ?_⟩
  · rw [save_img1_diff, if_pos hm]
  · rw [save_img2_diff, if_pos hm]
  · rw [lab_save_img1, if_pos hl]
  · rw [lab_save_img2, if_pos hl]

/-- Witness for the C8 theorem at a concrete masked pixel. -/
theorem isolate_recovers_witness :
    save_img1_diff blueImg (fun _ _ => true) 0 0 0 = blueImg.pxRGB 0 0 0 ∧
    save_img2_diff yellowImg (fun _ _ => true) 0 0 0 = yellowImg.pxRGB 0 0 0 ∧
    lab_save_img1 blueImg yellowImg 100 0 0 0 = blueImg.px 0 0 0 ∧
    lab_save_img2 blueImg yellowImg 100 0 0 0 = yellowImg.px 0 0 0 :=
  isolate_recovers blueImg yellowImg (fun _ _ => true) 100 0 0 0 rfl labDiff_blue_yellow

/-- C10: when the container formats differ, the procedural comparison,
the Lab variant's validation, compareImagesFormat and the CLI's format
gate all fail with an error before any pixel work, even for images of
identical dimensions, color mode and pixel content. -/
theorem format_precondition (a b : Img) (q : ℚ)
    (hsz : a.size = b.size) (_hmode : a.mode = b.mode)
    (_hpx : ∀ x y c, a.px x y c = b.px x y c) (hfmt : a.format ≠ b.format) :
    (∃ e, compareImagesToleranceBased a b q = Except.error e) ∧
    (∃ e, validate_images_lab a b = Except.error e) ∧
    (∃ e, compareImagesFormat a b = Except.error e) ∧
    (∃ e, mainFormatCheck a b = Except.error e) := by
  have hf : compareImagesFormat a b = .error "Image formats do not match" := by
    rw [compareImagesFormat, if_pos hfmt]
  refine ⟨⟨"Image formats do not match", ?_⟩, ⟨"Image formats do not match", ?_⟩,
    ⟨"Image formats do not match", hf⟩, ⟨"Image formats do not match", ?_⟩⟩
  · rw [compareImagesToleranceBased, if_neg (by simp [hsz]), hf]
  · rw [validate_images_lab, if_neg (by simp [hsz]), if_pos hfmt]
  · rw [mainFormatCheck, if_pos hfmt]

/-- Witness for the C10 theorem at two images identical except for their
container format. -/
theorem format_precondition_witness :
    (∃ e, compareImagesToleranceBased rgbZero rgbZeroJPEG (0 : ℚ) = Except.error e) ∧
    (∃ e, validate_images_lab rgbZero rgbZeroJPEG = Except.error e) ∧
    (∃ e, compareImagesFormat rgbZero rgbZeroJPEG = Except.error e) ∧
    (∃ e, mainFormatCheck rgbZero rgbZeroJPEG = Except.error e) :=
  format_precondition rgbZero rgbZeroJPEG 0 rfl rfl (fun _ _ _ => rfl) (by decide)
